import Mathlib

/-!
Shallow embedding of `app.py` (COACH authenticity-training data-capture form)
and verification of the record/validation model and the persistence contract.

The embedding models:
* the static vocabulary (image types, judgment values, learn-no reasons,
  per-type rationale options) — lines 25–56 of `app.py`;
* the per-image form rows and the aggregate ("overall") section — lines
  263–400, with widget selections represented by indices into the widget's
  option list (a `selectbox`/`radio` always yields one of its options);
* the save-button handler — lines 404–455 — over explicit states for the
  Drive blob store and the two spreadsheet tables, producing an ordered
  trace of the remote calls it performs.

Python strings are Lean `String`s; Python `None` is `Option.none`;
`st.stop()` is modelled by the handler returning with only the error
emitted so far and no further effects.
-/

namespace CoachApp

/-! ### Vocabulary (app.py lines 25–56) -/

def REQUIRED_IMAGE_TYPES : List String :=
  ["ロゴ", "馬車タグ", "製造国タグ", "YKK", "IDEAL"]

def LEARN_NO_REASONS : List String :=
  ["画像品質不良（ピント/反射/暗い）",
   "必要情報が写っていない",
   "基準未確定／判断が割れる",
   "テスト・検証用データ",
   "その他（自由記述で補足）"]

/-- The dict lookup `REASONS_BY_TYPE.get(image_type, [])` with default. -/
def REASONS_BY_TYPE (image_type : String) : List String :=
  if image_type = "ロゴ" then
    ["ロゴ：フォント／配置／刻印が基準内",
     "ロゴ：にじみ／ズレ／形状違い"]
  else if image_type = "馬車タグ" then
    ["馬車タグ：ピッチが5/7で基準内",
     "馬車タグ：ピッチが基準外（5/7以外）",
     "馬車タグ：キャビン形状が基準内",
     "馬車タグ：キャビン形状が基準外"]
  else if image_type = "製造国タグ" then
    ["製造国タグ：印刷／フォントが自然",
     "製造国タグ：にじみ／ズレ／フォント異常"]
  else if image_type = "YKK" then
    ["YKK：刻印が深く均一",
     "YKK：刻印が浅い／欠け／潰れ"]
  else []

def COMMON_REASON_ALWAYS : String := "判別不可（画像不鮮明）"

/-- Function `reason_options` (app.py lines 144–146). -/
def reason_options (image_type : String) : List String :=
  REASONS_BY_TYPE image_type ++ [COMMON_REASON_ALWAYS]

/-- Options of the per-image / overall judgment selectbox (lines 300, 373). -/
def JUDGE_OPTIONS : List String := ["基準内", "基準外", "判断つかず"]

/-- Options of the learn radio (lines 303, 387). -/
def LEARN_OPTIONS : List String := ["Yes", "No"]

/-- Options of the item selectbox (line 247). -/
def ITEM_OPTIONS : List String := ["バッグ", "財布"]

/-- Options of the overall reason multiselect (lines 377–383). -/
def OVERALL_REASON_OPTIONS : List String :=
  ["馬車タグが基準内のため総合は基準内寄り",
   "最重要ポイント（馬車タグ）が基準外のため総合は基準外寄り",
   "情報不足のため総合判断つかず",
   "複合的に判断（基準内要素が優勢）",
   "複合的に判断（基準外要素が優勢）"]

/-! ### Small Python primitives -/

/-- Python `str.strip()`: drop leading and trailing whitespace. -/
def pyStrip (s : String) : String :=
  ⟨((s.data.dropWhile Char.isWhitespace).reverse.dropWhile Char.isWhitespace).reverse⟩

/-- Python `needle in haystack` on character lists (substring containment). -/
def containsSub (needle : List Char) : List Char → Bool
  | [] => needle.isPrefixOf []
  | c :: cs => needle.isPrefixOf (c :: cs) || containsSub needle cs

/-- Python `"その他" in s` (line 352). -/
def containsOther (s : String) : Bool := containsSub "その他".data s.data

/-- A `selectbox`/`radio` widget: the operator's choice is always one of the
`options`; we represent it by an arbitrary index reduced modulo the length. -/
def selectFrom (options : List String) (idx : Nat) : String :=
  options.getD (idx % options.length) ""

/-- A `multiselect` widget: the chosen entries are always drawn from the
`options`; we represent the choice as an arbitrary list filtered to them. -/
def multiselectFrom (options chosen : List String) : List String :=
  chosen.filter (fun c => options.contains c)

/-! ### The per-image rows (app.py lines 263–363) -/

/-- The object `st.file_uploader` returns, when a file is present. -/
structure UploadedFile where
  name : String
  type : Option String
  contents : List Nat
deriving DecidableEq

/-- The operator's raw widget inputs for one photo row. -/
structure RowInput where
  uploaded : Option UploadedFile
  type_idx : Nat
  judge_idx : Nat
  learn_idx : Nat
  reason_choices : List String
  reason_free : String
  no_reason_idx : Nat
deriving DecidableEq

/-- One element of `images_payload` (lines 355–363). -/
structure ImagePayload where
  uploaded : Option UploadedFile
  image_type : String
  judge : String
  reason_choices : String
  reason_free : String
  learn_yn : String
  learn_no_reason : String
deriving DecidableEq

/-- The `available` option list for the image-type selectbox of one row
(lines 286–294), given the types chosen by the earlier rows:
filter out already-chosen types, apply the IDEAL/YKK mutual exclusion in
both directions, and fall back to the plain filtered list if that emptied
the candidates. -/
def availableTypes (chosen_types : List String) : List String :=
  let available := REQUIRED_IMAGE_TYPES.filter (fun t => !(chosen_types.contains t))
  let available1 :=
    if chosen_types.contains "IDEAL" && available.contains "YKK" then
      available.erase "YKK"
    else available
  let available2 :=
    if chosen_types.contains "YKK" && available1.contains "IDEAL" then
      available1.erase "IDEAL"
    else available1
  if available2.isEmpty then
    REQUIRED_IMAGE_TYPES.filter (fun t => !(chosen_types.contains t))
  else available2

/-- The assembled `learn_no_reason` of one row (lines 349–353): empty unless
learn is "No"; then the selected fixed reason, extended with `：` and the
free text (or the placeholder when the free text is empty) when the selected
reason contains "その他". -/
def mkLearnNoReason (learn_yn selected reason_free : String) : String :=
  if learn_yn = "No" then
    if containsOther selected then
      selected ++ "：" ++ (if reason_free = "" then "（自由記述に補足してください）" else reason_free)
    else selected
  else ""

/-- Build one element of `images_payload` from the row's widgets (lines
271–363), given the image types chosen by the earlier rows. -/
def buildRow (chosen_types : List String) (inp : RowInput) : ImagePayload :=
  let available := availableTypes chosen_types
  let image_type := selectFrom available inp.type_idx
  let judge := selectFrom JUDGE_OPTIONS inp.judge_idx
  let learn_yn := selectFrom LEARN_OPTIONS inp.learn_idx
  let reason_choices_joined :=
    if image_type = "IDEAL" then ""
    else String.intercalate " / " (multiselectFrom (reason_options image_type) inp.reason_choices)
  let selected_no_reason := selectFrom LEARN_NO_REASONS inp.no_reason_idx
  { uploaded := inp.uploaded
    image_type := image_type
    judge := judge
    reason_choices := reason_choices_joined
    reason_free := inp.reason_free
    learn_yn := learn_yn
    learn_no_reason := mkLearnNoReason learn_yn selected_no_reason inp.reason_free }

/-- The whole `images_payload` after the loop over `range(img_count)`
(lines 271–363): `chosen_types` accumulates exactly the `image_type`s of the
rows built so far. -/
def buildRows (inputs : Nat → RowInput) : Nat → List ImagePayload
  | 0 => []
  | n + 1 =>
    let ps := buildRows inputs n
    ps ++ [buildRow (ps.map (fun p => p.image_type)) (inputs n)]

/-- The `img_count` value as produced by the number_input with min 1, max 4 (line 263). -/
def imgCount (raw : Nat) : Nat := max 1 (min 4 raw)

/-! ### The overall (aggregate) section (app.py lines 367–400) -/

/-- The operator's raw widget inputs for the overall section. -/
structure OverallInput where
  judge_idx : Nat
  reason_choices : List String
  learn_idx : Nat
  reason_free : String
  no_reason_idx : Nat
deriving DecidableEq

/-- The `overall` dict (lines 394–400). -/
structure Overall where
  overall_judge : String
  overall_reason_choices : String
  overall_reason_free : String
  overall_learn_yn : String
  overall_learn_no_reason : String
deriving DecidableEq

/-- The `overall` value after lines 367–400: `None` below the two-image threshold; above
it, a record built from the overall widgets.  Note that
`overall_learn_no_reason` is the selected fixed reason as-is — unlike the
per-image rows there is no "その他" concatenation here (lines 390–392). -/
def buildOverall (img_count : Nat) (inp : OverallInput) : Option Overall :=
  if 2 ≤ img_count then
    let overall_learn_yn := selectFrom LEARN_OPTIONS inp.learn_idx
    some
      { overall_judge := selectFrom JUDGE_OPTIONS inp.judge_idx
        overall_reason_choices :=
          String.intercalate " / " (multiselectFrom OVERALL_REASON_OPTIONS inp.reason_choices)
        overall_reason_free := inp.reason_free
        overall_learn_yn := overall_learn_yn
        overall_learn_no_reason :=
          if overall_learn_yn = "No" then selectFrom LEARN_NO_REASONS inp.no_reason_idx
          else "" }
  else none

/-! ### Drive model (app.py lines 85–118) -/

structure DriveFile where
  id : String
  name : String
  parents : List String
  mimeType : String
  trashed : Bool
deriving DecidableEq

/-- The blob store: its files, plus a counter from which the server mints
fresh file identifiers. -/
structure DriveState where
  files : List DriveFile
  nextId : Nat
deriving DecidableEq

/-- The query of `ensure_folder` (lines 86–91): folder mime type, exact name,
parent among the parents, not trashed. -/
def folderMatches (name parent_id : String) (f : DriveFile) : Bool :=
  f.mimeType == "application/vnd.google-apps.folder" &&
    f.name == name && f.parents.contains parent_id && !f.trashed

/-- Function `ensure_folder` (lines 85–106): return the first matching folder's id if
one exists, otherwise create a fresh folder under the parent and return its
new id. -/
def ensure_folder (drive : DriveState) (name parent_id : String) : String × DriveState :=
  match (drive.files.filter (folderMatches name parent_id)).head? with
  | some f => (f.id, drive)
  | none =>
    let fid := "id_" ++ toString drive.nextId
    let folder : DriveFile :=
      { id := fid, name := name, parents := [parent_id],
        mimeType := "application/vnd.google-apps.folder", trashed := false }
    (fid, { files := drive.files ++ [folder], nextId := drive.nextId + 1 })

/-- Function `upload_image_to_drive` (lines 109–118): create a file under the parent
folder, returning its id and web view link. -/
def upload_image_to_drive (drive : DriveState) (parent_folder_id filename mimetype : String) :
    (String × String) × DriveState :=
  let fid := "id_" ++ toString drive.nextId
  let f : DriveFile :=
    { id := fid, name := filename, parents := [parent_folder_id],
      mimeType := mimetype, trashed := false }
  ((fid, "https://drive.example/view/" ++ fid),
   { files := drive.files ++ [f], nextId := drive.nextId + 1 })

/-! ### Sheets model (app.py lines 121–141) -/

structure SheetsState where
  casesExists : Bool
  imagesExists : Bool
  cases : List (List String)
  images : List (List String)
deriving DecidableEq

def CASES_HEADER : List String :=
  ["case_id", "brand", "item", "judge_person", "memo",
   "images_count", "overall_judge", "overall_reason_choices", "overall_reason_free",
   "overall_learn_yn", "overall_learn_no_reason", "weight_version", "created_at"]

def IMAGES_HEADER : List String :=
  ["case_id", "image_type", "drive_file_id", "drive_view_url",
   "judge", "reason_choices", "reason_free",
   "learn_yn", "learn_no_reason", "created_at"]

/-- Function `open_worksheets` (lines 121–141): create either worksheet with its
header row if it does not exist yet. -/
def open_worksheets (s : SheetsState) : SheetsState :=
  let s1 :=
    if !s.casesExists then
      { s with casesExists := true, cases := s.cases ++ [CASES_HEADER] }
    else s
  if !s1.imagesExists then
    { s1 with imagesExists := true, images := s1.images ++ [IMAGES_HEADER] }
  else s1

/-! ### The save handler (app.py lines 404–455) -/

/-- The `st.secrets["app"]` configuration. -/
structure Secrets where
  spreadsheet_id : String
  drive_root_folder_id : String
  weight_version : String
deriving DecidableEq

/-- Observable events of one save attempt, in program order. -/
inductive Ev where
  | errorShown (msg : String)
  | clientsBuilt
  | worksheetsOpened
  | folderEnsured (name parent : String)
  | imageUploaded (folder filename : String)
  | imagesRowAppended (row : List String)
  | casesRowAppended (row : List String)
deriving DecidableEq

/-- Remote calls are every event except the local `st.error` banner. -/
def isRemoteCall : Ev → Bool
  | Ev.errorShown _ => false
  | _ => true

def INSPECTOR_ERROR : String := "判定者（判定士名）を入力してください。"

/-- The message of line 412, a Python f-string interpolating the 1-based photo index. -/
def photoError (idx : Nat) : String :=
  "写真" ++ toString (idx + 1) ++ "の画像が未選択です。"

/-- Result of one press of the save button. -/
structure SaveResult where
  events : List Ev
  drive : DriveState
  sheets : SheetsState
  saved : Bool
deriving DecidableEq

/-- The mimetype fallback `uploaded.type or "image/jpeg"` (lines 307, 430). -/
def mimetypeOf (up : UploadedFile) : String :=
  match up.type with
  | some t => if t = "" then "image/jpeg" else t
  | none => "image/jpeg"

/-- The upload-and-append loop over `images_payload` (lines 426–437): for each
entry, upload its bytes under `<image_type>_<original name>` and append one
row to the Images worksheet. -/
def uploadAndLog (case_id created_at case_folder_id : String) :
    List ImagePayload → DriveState → SheetsState → List Ev × DriveState × SheetsState
  | [], drive, sheets => ([], drive, sheets)
  | p :: ps, drive, sheets =>
    let up := p.uploaded.getD { name := "", type := none, contents := [] }
    let filename := p.image_type ++ "_" ++ up.name
    let r := upload_image_to_drive drive case_folder_id filename (mimetypeOf up)
    let file_id := r.fst.fst
    let view_url := r.fst.snd
    let row :=
      [case_id, p.image_type, file_id, view_url,
       p.judge, p.reason_choices, p.reason_free,
       p.learn_yn, p.learn_no_reason, created_at]
    let sheets1 := { sheets with images := sheets.images ++ [row] }
    let rest := uploadAndLog case_id created_at case_folder_id ps r.snd sheets1
    (Ev.imageUploaded case_folder_id filename :: Ev.imagesRowAppended row :: rest.fst,
     rest.snd)

/-- The row appended to the Cases worksheet (lines 439–451). -/
def casesRow (case_id item judge_person_val memo : String) (img_count : Nat)
    (overall : Option Overall) (weight_version created_at : String) : List String :=
  match overall with
  | none =>
    [case_id, "COACH", item, judge_person_val, memo,
     toString img_count, "", "", "", "", "", weight_version, created_at]
  | some o =>
    [case_id, "COACH", item, judge_person_val, memo,
     toString img_count,
     o.overall_judge, o.overall_reason_choices, o.overall_reason_free,
     o.overall_learn_yn, o.overall_learn_no_reason,
     weight_version, created_at]

/-- The body of the save-button handler (lines 404–455).  `case_id` and
`created_at` are the handler's nondeterministic timestamp/uuid inputs.  The
two validation checks run first, in order, each aborting via `st.stop()` with
its error and no remote effect; a valid case then builds the clients, opens
the worksheets, ensures the case folder, uploads and logs every image, and
finally appends the single Cases row. -/
def saveHandler (sec : Secrets) (case_id created_at item judge_person memo : String)
    (img_count : Nat) (payload : List ImagePayload) (overall : Option Overall)
    (drive : DriveState) (sheets : SheetsState) : SaveResult :=
  let judge_person_val := pyStrip judge_person
  if judge_person_val = "" then
    { events := [Ev.errorShown INSPECTOR_ERROR], drive := drive, sheets := sheets, saved := false }
  else
    match payload.findIdx? (fun p => p.uploaded.isNone) with
    | some idx =>
      { events := [Ev.errorShown (photoError idx)], drive := drive, sheets := sheets,
        saved := false }
    | none =>
      let sheets1 := open_worksheets sheets
      let ef := ensure_folder drive case_id sec.drive_root_folder_id
      let ul := uploadAndLog case_id created_at ef.fst payload ef.snd sheets1
      let row := casesRow case_id item judge_person_val memo img_count overall
        sec.weight_version created_at
      { events :=
          [Ev.clientsBuilt, Ev.worksheetsOpened,
           Ev.folderEnsured case_id sec.drive_root_folder_id] ++
          ul.fst ++ [Ev.casesRowAppended row]
        drive := ul.snd.fst
        sheets := { ul.snd.snd with cases := ul.snd.snd.cases ++ [row] }
        saved := true }

/-! ### The whole form wired to the handler -/

/-- All operator inputs of one form fill. -/
structure FormInput where
  item_idx : Nat
  judge_person : String
  memo : String
  img_count_raw : Nat
  rows : Nat → RowInput
  overall_in : OverallInput

/-- One press of the save button on a filled form. -/
def runSave (sec : Secrets) (case_id created_at : String) (f : FormInput)
    (drive : DriveState) (sheets : SheetsState) : SaveResult :=
  let n := imgCount f.img_count_raw
  let payload := buildRows f.rows n
  let overall := buildOverall n f.overall_in
  saveHandler sec case_id created_at (selectFrom ITEM_OPTIONS f.item_idx)
    f.judge_person f.memo n payload overall drive sheets

/-! ### Spec-side predicates

These definitions follow the specification's words (not the code); they are
only used to compare the spec's validation condition with the code's. -/

/-- The LearnNoReason value the spec calls the "Other" variant. -/
def OTHER_VARIANT : String := "その他（自由記述で補足）"

/-- The entry's stored learn-no reason records the "Other" variant. -/
def otherVariantChosen (r : String) : Bool := OTHER_VARIANT.data.isPrefixOf r.data

/-- The spec's conditional-required rule for a learn-no reason: when the learn
decision is No, the reason is non-empty, and when the "Other" variant is
chosen it extends the bare variant with supplementary text. -/
def learnNoReasonOk (learn_yn learn_no_reason : String) : Prop :=
  learn_yn = "No" →
    learn_no_reason ≠ "" ∧
    (otherVariantChosen learn_no_reason = true →
      OTHER_VARIANT.length < learn_no_reason.length)

instance (learn_yn learn_no_reason : String) :
    Decidable (learnNoReasonOk learn_yn learn_no_reason) := by
  unfold learnNoReasonOk; infer_instance

/-- The validation acceptance condition exactly as the spec states it:
inspector name non-empty after trimming, every entry has uploaded bytes, a
judgment and a learn decision, and every learn-No entry — and the aggregate,
if present — has a non-empty learn-no reason with supplement text when the
"Other" variant is chosen. -/
def specAccepts (judge_person : String) (payload : List ImagePayload)
    (overall : Option Overall) : Prop :=
  pyStrip judge_person ≠ "" ∧
  (∀ p ∈ payload, p.uploaded.isSome = true) ∧
  (∀ p ∈ payload, p.judge ≠ "" ∧ p.learn_yn ≠ "") ∧
  (∀ p ∈ payload, learnNoReasonOk p.learn_yn p.learn_no_reason) ∧
  (∀ o ∈ overall.toList, learnNoReasonOk o.overall_learn_yn o.overall_learn_no_reason)

instance (judge_person : String) (payload : List ImagePayload) (overall : Option Overall) :
    Decidable (specAccepts judge_person payload overall) := by
  unfold specAccepts; infer_instance

/-- The option list actually passed to a row's rationale multiselect
(app.py lines 330–344): the IDEAL branch passes a disabled empty list and
never calls `reason_options`. -/
def formReasonOptions (image_type : String) : List String :=
  if image_type = "IDEAL" then [] else reason_options image_type

/-! ### Helper lemmas: widgets -/

theorem selectFrom_mem (options : List String) (idx : Nat) (h : options ≠ []) :
    selectFrom options idx ∈ options := by
  unfold selectFrom
  have hlen : 0 < options.length := List.length_pos.mpr h
  have hlt : idx % options.length < options.length := Nat.mod_lt _ hlen
  rw [List.getD_eq_getElem _ _ hlt]
  exact List.getElem_mem hlt

theorem mkLearnNoReason_ok (learn_yn selected reason_free : String)
    (hsel : selected ∈ LEARN_NO_REASONS) :
    learnNoReasonOk learn_yn (mkLearnNoReason learn_yn selected reason_free) := by
  intro hno
  unfold mkLearnNoReason
  rw [if_pos hno]
  have key : ∀ y : String,
      ("その他（自由記述で補足）" ++ "：" ++ y : String) ≠ "" ∧
      (otherVariantChosen ("その他（自由記述で補足）" ++ "：" ++ y) = true →
        OTHER_VARIANT.length < ("その他（自由記述で補足）" ++ "：" ++ y).length) := by
    intro y
    have hlen : ("その他（自由記述で補足）" ++ "：" ++ y : String).length = 13 + y.length := by
      simp only [String.length_append]
      have h12 : ("その他（自由記述で補足）" : String).length = 12 := by decide
      have h1 : ("：" : String).length = 1 := by decide
      omega
    have h0 : ("" : String).length = 0 := by decide
    have hOV : OTHER_VARIANT.length = 12 := by decide
    constructor
    · intro h
      have := congrArg String.length h
      rw [hlen, h0] at this
      omega
    · intro _
      rw [hlen, hOV]
      omega
  simp only [LEARN_NO_REASONS] at hsel
  fin_cases hsel
  · rw [if_neg (by decide)]
    exact ⟨by decide, fun h => absurd h (by decide)⟩
  · rw [if_neg (by decide)]
    exact ⟨by decide, fun h => absurd h (by decide)⟩
  · rw [if_neg (by decide)]
    exact ⟨by decide, fun h => absurd h (by decide)⟩
  · rw [if_neg (by decide)]
    exact ⟨by decide, fun h => absurd h (by decide)⟩
  · rw [if_pos (by decide)]
    exact key _

/-! ### Helper lemmas: rows and the overall section -/

theorem buildRow_judge_mem (chosen : List String) (inp : RowInput) :
    (buildRow chosen inp).judge ∈ JUDGE_OPTIONS :=
  selectFrom_mem _ _ (by decide)

theorem buildRow_learn_mem (chosen : List String) (inp : RowInput) :
    (buildRow chosen inp).learn_yn ∈ LEARN_OPTIONS :=
  selectFrom_mem _ _ (by decide)

theorem buildRow_learnNoReasonOk (chosen : List String) (inp : RowInput) :
    learnNoReasonOk (buildRow chosen inp).learn_yn (buildRow chosen inp).learn_no_reason :=
  mkLearnNoReason_ok _ _ _ (selectFrom_mem _ _ (by decide))

theorem buildOverall_eq (n : Nat) (inp : OverallInput) (h2 : 2 ≤ n) :
    buildOverall n inp = some
      { overall_judge := selectFrom JUDGE_OPTIONS inp.judge_idx
        overall_reason_choices :=
          String.intercalate " / " (multiselectFrom OVERALL_REASON_OPTIONS inp.reason_choices)
        overall_reason_free := inp.reason_free
        overall_learn_yn := selectFrom LEARN_OPTIONS inp.learn_idx
        overall_learn_no_reason :=
          if selectFrom LEARN_OPTIONS inp.learn_idx = "No" then
            selectFrom LEARN_NO_REASONS inp.no_reason_idx
          else "" } := by
  unfold buildOverall
  rw [if_pos h2]

theorem buildOverall_none (n : Nat) (inp : OverallInput) (h2 : n < 2) :
    buildOverall n inp = none := by
  unfold buildOverall
  rw [if_neg (by omega)]

theorem mem_LEARN_NO_REASONS_ne_empty (r : String) (h : r ∈ LEARN_NO_REASONS) : r ≠ "" := by
  simp only [LEARN_NO_REASONS] at h
  fin_cases h <;> decide

/-! ### C9: folder provisioning is idempotent -/

/-- C9: the function `ensure_folder` is idempotent: if a matching non-trashed folder
already exists it returns that folder's identifier and leaves the store
untouched, and calling it twice with the same name and parent yields the same
identifier both times with no second creation. -/
theorem ensure_folder_idempotent (d : DriveState) (name parent_id : String) :
    (ensure_folder (ensure_folder d name parent_id).2 name parent_id =
      ((ensure_folder d name parent_id).1, (ensure_folder d name parent_id).2)) ∧
    (∀ f fs, d.files.filter (folderMatches name parent_id) = f :: fs →
      ensure_folder d name parent_id = (f.id, d)) := by
  constructor
  · cases h : d.files.filter (folderMatches name parent_id) with
    | cons f fs => simp [ensure_folder, h]
    | nil =>
      have hm : folderMatches name parent_id
          { id := "id_" ++ toString d.nextId, name := name, parents := [parent_id],
            mimeType := "application/vnd.google-apps.folder", trashed := false } = true := by
        simp [folderMatches]
      simp [ensure_folder, h, List.filter_append, hm]
  · intro f fs h
    simp [ensure_folder, h]

/-- C9 (witness): on a concrete store already holding a matching folder,
both parts of the idempotence theorem apply: the folder is found, nothing is
created, and a second call repeats the same identifier. -/
theorem ensure_folder_idempotent_witness :
    (ensure_folder (ensure_folder ⟨[⟨"F1", "case_A", ["root"],
        "application/vnd.google-apps.folder", false⟩], 0⟩ "case_A" "root").2 "case_A" "root" =
      ((ensure_folder ⟨[⟨"F1", "case_A", ["root"],
        "application/vnd.google-apps.folder", false⟩], 0⟩ "case_A" "root").1,
       (ensure_folder ⟨[⟨"F1", "case_A", ["root"],
        "application/vnd.google-apps.folder", false⟩], 0⟩ "case_A" "root").2)) ∧
    ensure_folder ⟨[⟨"F1", "case_A", ["root"],
        "application/vnd.google-apps.folder", false⟩], 0⟩ "case_A" "root" =
      ("F1", ⟨[⟨"F1", "case_A", ["root"], "application/vnd.google-apps.folder", false⟩], 0⟩) := by
  refine ⟨(ensure_folder_idempotent _ "case_A" "root").1, ?_⟩
  have := (ensure_folder_idempotent
    (⟨[⟨"F1", "case_A", ["root"], "application/vnd.google-apps.folder", false⟩], 0⟩ : DriveState)
    "case_A" "root").2
    ⟨"F1", "case_A", ["root"], "application/vnd.google-apps.folder", false⟩ [] (by decide)
  exact this

/-! ### C7: rationale options -/

/-- C7 (counterexample): the claim says that `reason_options` applied to IDEAL
returns an empty sequence; in the code it returns the singleton universal
"undecipherable image" option (the dict lookup defaults to `[]` and the
universal option is still appended). -/
theorem reason_options_IDEAL_not_empty :
    reason_options "IDEAL" = ["判別不可（画像不鮮明）"] ∧
    (["判別不可（画像不鮮明）"] : List String) ≠ [] := by
  exact ⟨by decide, by decide⟩

/-- C7 (amended): the function `reason_options` returns the type-specific list with the
universal option appended for every image type, IDEAL included (for IDEAL the
type-specific list is empty, so it returns just the universal option); the
empty option sequence for IDEAL is enforced at the form site, which passes a
disabled empty option list instead of calling `reason_options`, so an IDEAL
row's joined rationale choices are always empty. -/
theorem rationale_options_characterization (image_type : String)
    (chosen : List String) (inp : RowInput) :
    reason_options image_type = REASONS_BY_TYPE image_type ++ [COMMON_REASON_ALWAYS] ∧
    formReasonOptions "IDEAL" = [] ∧
    (image_type ≠ "IDEAL" → formReasonOptions image_type = reason_options image_type) ∧
    ((buildRow chosen inp).image_type = "IDEAL" → (buildRow chosen inp).reason_choices = "") := by
  refine ⟨rfl, rfl, ?_, ?_⟩
  · intro h
    unfold formReasonOptions
    rw [if_neg h]
  · intro h
    have h' : selectFrom (availableTypes chosen) inp.type_idx = "IDEAL" := h
    show (if selectFrom (availableTypes chosen) inp.type_idx = "IDEAL" then ""
      else String.intercalate " / "
        (multiselectFrom (reason_options (selectFrom (availableTypes chosen) inp.type_idx))
          inp.reason_choices)) = ""
    rw [if_pos h']

/-- C7 (amended, witness): the amended characterization evaluated at
image type "ロゴ" on a first row whose type selectbox picks IDEAL (index 4 of
the full type list), discharging both inner implications concretely. -/
theorem rationale_options_characterization_witness :
    reason_options "ロゴ" = REASONS_BY_TYPE "ロゴ" ++ [COMMON_REASON_ALWAYS] ∧
    formReasonOptions "IDEAL" = [] ∧
    (("ロゴ" : String) ≠ "IDEAL" → formReasonOptions "ロゴ" = reason_options "ロゴ") ∧
    ((buildRow [] ⟨none, 4, 0, 0, [], "", 0⟩).image_type = "IDEAL" →
      (buildRow [] ⟨none, 4, 0, 0, [], "", 0⟩).reason_choices = "") :=
  rationale_options_characterization "ロゴ" [] ⟨none, 4, 0, 0, [], "", 0⟩

/-! ### C8: the aggregate's learn-no reason -/

/-- C8 (counterexample): with the aggregate's learn decision No, the
"Other" variant selected and free text "ピントが甘い", the stored
`overall_learn_no_reason` is the bare variant, not the variant concatenated
with the free text — while the per-image assembly of the very same inputs
does concatenate. -/
theorem overall_other_reason_not_concatenated :
    (buildOverall 2 ⟨0, [], 1, "ピントが甘い", 4⟩).map
        (fun o => o.overall_learn_no_reason) = some "その他（自由記述で補足）" ∧
    ("その他（自由記述で補足）" : String) ≠ "その他（自由記述で補足）：ピントが甘い" ∧
    mkLearnNoReason "No" "その他（自由記述で補足）" "ピントが甘い" =
      "その他（自由記述で補足）：ピントが甘い" := by
  refine ⟨by decide, by decide, by decide⟩

/-- C8 (amended): when the aggregate's learn decision is No, the stored
`overall_learn_no_reason` is the selected fixed LearnNoReason verbatim — a
non-empty member of the five-value list — and no supplementary free text is
concatenated even for the "Other" variant; the concatenation rule applies
only to per-image entries. -/
theorem overall_learn_no_reason_verbatim (n : Nat) (inp : OverallInput)
    (h2 : 2 ≤ n) (hno : selectFrom LEARN_OPTIONS inp.learn_idx = "No") :
    (buildOverall n inp).map (fun o => o.overall_learn_no_reason) =
      some (selectFrom LEARN_NO_REASONS inp.no_reason_idx) ∧
    selectFrom LEARN_NO_REASONS inp.no_reason_idx ∈ LEARN_NO_REASONS ∧
    selectFrom LEARN_NO_REASONS inp.no_reason_idx ≠ "" := by
  have hmem : selectFrom LEARN_NO_REASONS inp.no_reason_idx ∈ LEARN_NO_REASONS :=
    selectFrom_mem _ _ (by decide)
  refine ⟨?_, hmem, mem_LEARN_NO_REASONS_ne_empty _ hmem⟩
  rw [buildOverall_eq n inp h2]
  simp only [Option.map_some']
  congr 1
  rw [if_pos hno]

/-- C8 (amended, witness): the amended statement evaluated with two
images, learn decision No (radio index 1) and the "Other" variant selected. -/
theorem overall_learn_no_reason_verbatim_witness :
    (buildOverall 2 ⟨0, [], 1, "x", 4⟩).map (fun o => o.overall_learn_no_reason) =
      some (selectFrom LEARN_NO_REASONS 4) ∧
    selectFrom LEARN_NO_REASONS 4 ∈ LEARN_NO_REASONS ∧
    selectFrom LEARN_NO_REASONS 4 ≠ "" :=
  overall_learn_no_reason_verbatim 2 ⟨0, [], 1, "x", 4⟩ (by decide) (by decide)

/-! ### Helper lemmas: the available-types mechanism -/

theorem contains_eq_true_of_mem {l : List String} {x : String} (h : x ∈ l) :
    l.contains x = true := by
  simpa using h

theorem contains_eq_false_of_not_mem {l : List String} {x : String} (h : x ∉ l) :
    l.contains x = false := by
  simpa using h

theorem availableTypes_mem (chosen : List String) :
    ∀ x ∈ availableTypes chosen, x ∈ REQUIRED_IMAGE_TYPES ∧ x ∉ chosen := by
  intro x hx
  have key : x ∈ REQUIRED_IMAGE_TYPES.filter (fun t => !(chosen.contains t)) := by
    simp only [availableTypes] at hx
    split_ifs at hx
    all_goals first
      | exact hx
      | exact List.erase_subset _ _ hx
      | exact List.erase_subset _ _ (List.erase_subset _ _ hx)
  rw [List.mem_filter] at key
  refine ⟨key.1, ?_⟩
  simpa using key.2

theorem filter_not_chosen_ne_nil (chosen : List String) (hlen : chosen.length ≤ 3) :
    REQUIRED_IMAGE_TYPES.filter (fun t => !(chosen.contains t)) ≠ [] := by
  intro h
  have hsub : REQUIRED_IMAGE_TYPES ⊆ chosen := by
    intro t ht
    have := List.filter_eq_nil_iff.mp h t ht
    simpa using this
  have hnd : REQUIRED_IMAGE_TYPES.Nodup := by decide
  have hle := (List.subperm_of_subset hnd hsub).length_le
  have h5 : REQUIRED_IMAGE_TYPES.length = 5 := by decide
  omega

theorem filter_not_chosen_two_le (chosen : List String) (hlen : chosen.length ≤ 3) :
    2 ≤ (REQUIRED_IMAGE_TYPES.filter (fun t => !(chosen.contains t))).length := by
  have hpart : REQUIRED_IMAGE_TYPES.length =
      (REQUIRED_IMAGE_TYPES.filter (fun t => !(chosen.contains t))).length +
      (REQUIRED_IMAGE_TYPES.filter (fun t => !(!(chosen.contains t)))).length :=
    REQUIRED_IMAGE_TYPES.length_eq_length_filter_add (fun t => !(chosen.contains t))
  have hnd : REQUIRED_IMAGE_TYPES.Nodup := by decide
  have hsub2 : REQUIRED_IMAGE_TYPES.filter (fun t => !(!(chosen.contains t))) ⊆ chosen := by
    intro t ht
    rw [List.mem_filter] at ht
    have h2 := ht.2
    simp only [Bool.not_not] at h2
    simpa using h2
  have hnd2 : (REQUIRED_IMAGE_TYPES.filter (fun t => !(!(chosen.contains t)))).Nodup :=
    hnd.filter _
  have hle := (List.subperm_of_subset hnd2 hsub2).length_le
  have h5 : REQUIRED_IMAGE_TYPES.length = 5 := by decide
  omega

theorem availableTypes_ne_nil (chosen : List String) (hlen : chosen.length ≤ 3) :
    availableTypes chosen ≠ [] := by
  have hF := filter_not_chosen_ne_nil chosen hlen
  simp only [availableTypes]
  set F := REQUIRED_IMAGE_TYPES.filter (fun t => !(chosen.contains t)) with hFdef
  set a1 := if chosen.contains "IDEAL" && F.contains "YKK" then F.erase "YKK" else F with ha1
  set a2 := if chosen.contains "YKK" && a1.contains "IDEAL" then a1.erase "IDEAL" else a1 with ha2
  by_cases he : a2.isEmpty = true
  · rw [if_pos he]
    exact hF
  · rw [if_neg he]
    intro hnil
    rw [hnil] at he
    exact he rfl

theorem availableTypes_excludes_YKK (chosen : List String) (hlen : chosen.length ≤ 3)
    (hI : chosen.contains "IDEAL" = true) (hnY : chosen.contains "YKK" = false) :
    "YKK" ∉ availableTypes chosen := by
  have hFnd : (REQUIRED_IMAGE_TYPES.filter (fun t => !(chosen.contains t))).Nodup :=
    (by decide : REQUIRED_IMAGE_TYPES.Nodup).filter _
  have hFlen := filter_not_chosen_two_le chosen hlen
  simp only [availableTypes]
  set F := REQUIRED_IMAGE_TYPES.filter (fun t => !(chosen.contains t)) with hFdef
  rw [hI, hnY]
  simp only [Bool.true_and, Bool.false_and, Bool.false_eq_true, if_false]
  by_cases hY : F.contains "YKK" = true
  · rw [if_pos hY]
    have hYmem : "YKK" ∈ F := by simpa using hY
    have herase_len : (F.erase "YKK").length = F.length - 1 :=
      List.length_erase_of_mem hYmem
    have hne : (F.erase "YKK").isEmpty = false := by
      rw [List.isEmpty_eq_false]
      intro hnil
      rw [hnil] at herase_len
      simp at herase_len
      omega
    rw [if_neg (by rw [hne]; exact Bool.false_ne_true)]
    intro hmem
    have := (hFnd.mem_erase_iff.mp hmem).1
    exact this rfl
  · rw [if_neg hY]
    have hnotY : "YKK" ∉ F := by
      intro hm
      exact hY (contains_eq_true_of_mem hm)
    by_cases he : F.isEmpty = true
    · rw [if_pos he]
      exact fun hm => hnotY hm
    · rw [if_neg he]
      exact hnotY

theorem availableTypes_excludes_IDEAL (chosen : List String) (hlen : chosen.length ≤ 3)
    (hY : chosen.contains "YKK" = true) (hnI : chosen.contains "IDEAL" = false) :
    "IDEAL" ∉ availableTypes chosen := by
  have hFnd : (REQUIRED_IMAGE_TYPES.filter (fun t => !(chosen.contains t))).Nodup :=
    (by decide : REQUIRED_IMAGE_TYPES.Nodup).filter _
  have hFlen := filter_not_chosen_two_le chosen hlen
  simp only [availableTypes]
  set F := REQUIRED_IMAGE_TYPES.filter (fun t => !(chosen.contains t)) with hFdef
  rw [hY, hnI]
  simp only [Bool.true_and, Bool.false_and, Bool.false_eq_true, if_false]
  by_cases hImem : F.contains "IDEAL" = true
  · rw [if_pos hImem]
    have hImem' : "IDEAL" ∈ F := by simpa using hImem
    have herase_len : (F.erase "IDEAL").length = F.length - 1 :=
      List.length_erase_of_mem hImem'
    have hne : (F.erase "IDEAL").isEmpty = false := by
      rw [List.isEmpty_eq_false]
      intro hnil
      rw [hnil] at herase_len
      simp at herase_len
      omega
    rw [if_neg (by rw [hne]; exact Bool.false_ne_true)]
    intro hmem
    have := (hFnd.mem_erase_iff.mp hmem).1
    exact this rfl
  · rw [if_neg hImem]
    have hnotI : "IDEAL" ∉ F := by
      intro hm
      exact hImem (contains_eq_true_of_mem hm)
    by_cases he : F.isEmpty = true
    · rw [if_pos he]
      exact fun hm => hnotI hm
    · rw [if_neg he]
      exact hnotI

/-! ### C6: image-type list invariants -/

/-- The image types of the rows built so far (the incremental `chosen_types`
list of app.py line 297). -/
def typesOf (inputs : Nat → RowInput) (n : Nat) : List String :=
  (buildRows inputs n).map (fun p => p.image_type)

theorem typesOf_succ (inputs : Nat → RowInput) (n : Nat) :
    typesOf inputs (n + 1) = typesOf inputs n ++
      [selectFrom (availableTypes (typesOf inputs n)) ((inputs n).type_idx)] := by
  simp only [typesOf, buildRows, List.map_append]
  rfl

theorem typesOf_invariant (inputs : Nat → RowInput) (n : Nat) (hn : n ≤ 4) :
    (typesOf inputs n).length = n ∧
    (typesOf inputs n).Nodup ∧
    (∀ x ∈ typesOf inputs n, x ∈ REQUIRED_IMAGE_TYPES) ∧
    ¬("IDEAL" ∈ typesOf inputs n ∧ "YKK" ∈ typesOf inputs n) := by
  induction n with
  | zero =>
    refine ⟨rfl, List.nodup_nil, ?_, ?_⟩
    · intro x hx
      simp [typesOf, buildRows] at hx
    · rintro ⟨hI, _⟩
      simp [typesOf, buildRows] at hI
  | succ m ih =>
    obtain ⟨hlen, hnd, hsub, hnb⟩ := ih (by omega)
    have hm3 : (typesOf inputs m).length ≤ 3 := by omega
    have htmem : selectFrom (availableTypes (typesOf inputs m)) ((inputs m).type_idx) ∈
        availableTypes (typesOf inputs m) :=
      selectFrom_mem _ _ (availableTypes_ne_nil _ hm3)
    obtain ⟨htR, htnotin⟩ := availableTypes_mem _ _ htmem
    rw [typesOf_succ]
    refine ⟨by simp [hlen], ?_, ?_, ?_⟩
    · rw [List.nodup_append]
      refine ⟨hnd, List.nodup_singleton _, ?_⟩
      intro a ha hb
      rw [List.mem_singleton] at hb
      subst hb
      exact htnotin ha
    · intro x hx
      rcases List.mem_append.mp hx with h | h
      · exact hsub x h
      · rw [List.mem_singleton] at h
        subst h
        exact htR
    · rintro ⟨hI, hY⟩
      rcases List.mem_append.mp hI with hI | hI <;> rcases List.mem_append.mp hY with hY | hY
      · exact hnb ⟨hI, hY⟩
      · rw [List.mem_singleton] at hY
        have hcI : (typesOf inputs m).contains "IDEAL" = true := contains_eq_true_of_mem hI
        have hcY : (typesOf inputs m).contains "YKK" = false :=
          contains_eq_false_of_not_mem (fun hm => hnb ⟨hI, hm⟩)
        exact availableTypes_excludes_YKK _ hm3 hcI hcY (hY ▸ htmem)
      · rw [List.mem_singleton] at hI
        have hcY : (typesOf inputs m).contains "YKK" = true := contains_eq_true_of_mem hY
        have hcI : (typesOf inputs m).contains "IDEAL" = false :=
          contains_eq_false_of_not_mem (fun hm => hnb ⟨hm, hY⟩)
        exact availableTypes_excludes_IDEAL _ hm3 hcY hcI (hI ▸ htmem)
      · rw [List.mem_singleton] at hI hY
        have : ("IDEAL" : String) = "YKK" := hI.trans hY.symm
        exact absurd this (by decide)

/-- C6: any case built through the available-types mechanism has between
1 and 4 image entries, pairwise-distinct image types, never both IDEAL and
YKK among them; and as soon as one of the IDEAL/YKK pair has been chosen by
an earlier entry, the other is excluded from the selectable set offered to
every subsequent entry. -/
theorem case_types_invariant (inputs : Nat → RowInput) (raw : Nat) :
    1 ≤ (buildRows inputs (imgCount raw)).length ∧
    (buildRows inputs (imgCount raw)).length ≤ 4 ∧
    ((buildRows inputs (imgCount raw)).map (fun p => p.image_type)).Nodup ∧
    ¬("IDEAL" ∈ (buildRows inputs (imgCount raw)).map (fun p => p.image_type) ∧
      "YKK" ∈ (buildRows inputs (imgCount raw)).map (fun p => p.image_type)) ∧
    (∀ k, k < imgCount raw →
      ("IDEAL" ∈ typesOf inputs k → "YKK" ∉ availableTypes (typesOf inputs k)) ∧
      ("YKK" ∈ typesOf inputs k → "IDEAL" ∉ availableTypes (typesOf inputs k))) := by
  have hbounds : 1 ≤ imgCount raw ∧ imgCount raw ≤ 4 := by
    unfold imgCount
    omega
  obtain ⟨hlen, hnd, _, hnb⟩ := typesOf_invariant inputs (imgCount raw) hbounds.2
  have hmap : (typesOf inputs (imgCount raw)).length =
      (buildRows inputs (imgCount raw)).length := List.length_map _ _
  have hlen' : (buildRows inputs (imgCount raw)).length = imgCount raw := by omega
  refine ⟨by omega, by omega, hnd, hnb, ?_⟩
  intro k hk
  obtain ⟨hlenk, hndk, hsubk, hnbk⟩ := typesOf_invariant inputs k (by omega)
  have hk3 : (typesOf inputs k).length ≤ 3 := by omega
  constructor
  · intro hI
    exact availableTypes_excludes_YKK _ hk3 (contains_eq_true_of_mem hI)
      (contains_eq_false_of_not_mem (fun hm => hnbk ⟨hI, hm⟩))
  · intro hY
    exact availableTypes_excludes_IDEAL _ hk3 (contains_eq_true_of_mem hY)
      (contains_eq_false_of_not_mem (fun hm => hnbk ⟨hm, hY⟩))

/-- C6 (witness): the invariant theorem applied to a concrete two-row
form whose first row picks YKK (index 3) and whose second row asks for index
3 again — the exclusion mechanism makes the second entry IDEAL-free. -/
theorem case_types_invariant_witness :
    1 ≤ (buildRows (fun _ => ⟨none, 3, 0, 0, [], "", 0⟩) (imgCount 2)).length ∧
    (buildRows (fun _ => ⟨none, 3, 0, 0, [], "", 0⟩) (imgCount 2)).length ≤ 4 ∧
    ((buildRows (fun _ => ⟨none, 3, 0, 0, [], "", 0⟩) (imgCount 2)).map
      (fun p => p.image_type)).Nodup ∧
    ¬("IDEAL" ∈ (buildRows (fun _ => ⟨none, 3, 0, 0, [], "", 0⟩) (imgCount 2)).map
        (fun p => p.image_type) ∧
      "YKK" ∈ (buildRows (fun _ => ⟨none, 3, 0, 0, [], "", 0⟩) (imgCount 2)).map
        (fun p => p.image_type)) ∧
    (∀ k, k < imgCount 2 →
      ("IDEAL" ∈ typesOf (fun _ => ⟨none, 3, 0, 0, [], "", 0⟩) k →
        "YKK" ∉ availableTypes (typesOf (fun _ => ⟨none, 3, 0, 0, [], "", 0⟩) k)) ∧
      ("YKK" ∈ typesOf (fun _ => ⟨none, 3, 0, 0, [], "", 0⟩) k →
        "IDEAL" ∉ availableTypes (typesOf (fun _ => ⟨none, 3, 0, 0, [], "", 0⟩) k))) :=
  case_types_invariant (fun _ => ⟨none, 3, 0, 0, [], "", 0⟩) 2

/-! ### Helper lemmas: the save handler -/

/-- Project an Images-row append event to the row fields that come from the
payload entry (dropping the Drive-assigned file id and view URL). -/
def imgRowProj : Ev → Option (List String)
  | Ev.imagesRowAppended row =>
    some [row.getD 0 "", row.getD 1 "", row.getD 4 "", row.getD 5 "",
          row.getD 6 "", row.getD 7 "", row.getD 8 "", row.getD 9 ""]
  | _ => none

/-- The payload-derived fields of the Images row of one entry. -/
def payloadProj (case_id created_at : String) (p : ImagePayload) : List String :=
  [case_id, p.image_type, p.judge, p.reason_choices, p.reason_free,
   p.learn_yn, p.learn_no_reason, created_at]

theorem uploadAndLog_spec (case_id created_at fid : String) (ps : List ImagePayload) :
    ∀ d s,
      (uploadAndLog case_id created_at fid ps d s).1.filterMap imgRowProj =
        ps.map (payloadProj case_id created_at) ∧
      (∀ r, Ev.casesRowAppended r ∉ (uploadAndLog case_id created_at fid ps d s).1) ∧
      (uploadAndLog case_id created_at fid ps d s).1.filter
        (fun e => !(isRemoteCall e)) = [] ∧
      (uploadAndLog case_id created_at fid ps d s).2.2.cases = s.cases ∧
      (uploadAndLog case_id created_at fid ps d s).2.2.images.length =
        s.images.length + ps.length := by
  induction ps with
  | nil =>
    intro d s
    refine ⟨rfl, ?_, rfl, rfl, rfl⟩
    intro r hr
    simp [uploadAndLog] at hr
  | cons p ps ih =>
    intro d s
    obtain ⟨ih1, ih2, ih3, ih4, ih5⟩ :=
      ih (upload_image_to_drive d fid (p.image_type ++ "_"
            ++ (p.uploaded.getD ⟨"", none, []⟩).name)
          (mimetypeOf (p.uploaded.getD ⟨"", none, []⟩))).2
        { s with images := s.images ++
            [[case_id, p.image_type,
              (upload_image_to_drive d fid (p.image_type ++ "_"
                  ++ (p.uploaded.getD ⟨"", none, []⟩).name)
                (mimetypeOf (p.uploaded.getD ⟨"", none, []⟩))).1.1,
              (upload_image_to_drive d fid (p.image_type ++ "_"
                  ++ (p.uploaded.getD ⟨"", none, []⟩).name)
                (mimetypeOf (p.uploaded.getD ⟨"", none, []⟩))).1.2,
              p.judge, p.reason_choices, p.reason_free,
              p.learn_yn, p.learn_no_reason, created_at]] }
    refine ⟨?_, ?_, ?_, ?_, ?_⟩
    · show List.filterMap imgRowProj
        (Ev.imageUploaded fid _ :: Ev.imagesRowAppended _ :: _) = _
      rw [List.filterMap_cons_none (by rfl), List.filterMap_cons_some (by rfl)]
      rw [ih1]
      rfl
    · intro r hr
      simp only [uploadAndLog, List.mem_cons] at hr
      rcases hr with h | h | h
      · cases h
      · cases h
      · exact ih2 r h
    · show List.filter (fun e => !(isRemoteCall e))
        (Ev.imageUploaded fid _ :: Ev.imagesRowAppended _ :: _) = _
      rw [List.filter_cons_of_neg (fun h => Bool.noConfusion h),
        List.filter_cons_of_neg (fun h => Bool.noConfusion h)]
      exact ih3
    · show (uploadAndLog case_id created_at fid ps _ _).2.2.cases = s.cases
      rw [ih4]
    · show (uploadAndLog case_id created_at fid ps _ _).2.2.images.length =
        s.images.length + (p :: ps).length
      rw [ih5]
      simp only [List.length_append, List.length_cons, List.length_nil]
      omega

theorem findIdx?_none_of_all_some (payload : List ImagePayload)
    (hup : ∀ p ∈ payload, p.uploaded.isSome = true) :
    payload.findIdx? (fun p => p.uploaded.isNone) = none := by
  rw [List.findIdx?_eq_none_iff]
  intro p hp
  have h := hup p hp
  cases hv : p.uploaded with
  | none => rw [hv] at h; cases h
  | some v => rfl

theorem all_some_of_findIdx?_none (payload : List ImagePayload)
    (h : payload.findIdx? (fun p => p.uploaded.isNone) = none) :
    ∀ p ∈ payload, p.uploaded.isSome = true := by
  intro p hp
  have := List.findIdx?_eq_none_iff.mp h p hp
  cases hv : p.uploaded with
  | none => rw [hv] at this; cases this
  | some v => rfl

theorem saveHandler_empty_name (sec : Secrets)
    (case_id created_at item judge_person memo : String) (n : Nat)
    (payload : List ImagePayload) (overall : Option Overall)
    (d : DriveState) (s : SheetsState) (h : pyStrip judge_person = "") :
    saveHandler sec case_id created_at item judge_person memo n payload overall d s =
      { events := [Ev.errorShown INSPECTOR_ERROR], drive := d, sheets := s,
        saved := false } := by
  simp only [saveHandler]
  rw [if_pos h]

theorem saveHandler_missing_photo (sec : Secrets)
    (case_id created_at item judge_person memo : String) (n : Nat)
    (payload : List ImagePayload) (overall : Option Overall)
    (d : DriveState) (s : SheetsState) (idx : Nat)
    (hname : ¬ pyStrip judge_person = "")
    (hidx : payload.findIdx? (fun p => p.uploaded.isNone) = some idx) :
    saveHandler sec case_id created_at item judge_person memo n payload overall d s =
      { events := [Ev.errorShown (photoError idx)], drive := d, sheets := s,
        saved := false } := by
  simp only [saveHandler]
  rw [if_neg hname, hidx]

theorem saveHandler_valid (sec : Secrets)
    (case_id created_at item judge_person memo : String) (n : Nat)
    (payload : List ImagePayload) (overall : Option Overall)
    (d : DriveState) (s : SheetsState)
    (hname : ¬ pyStrip judge_person = "")
    (hnone : payload.findIdx? (fun p => p.uploaded.isNone) = none) :
    saveHandler sec case_id created_at item judge_person memo n payload overall d s =
      { events := [Ev.clientsBuilt, Ev.worksheetsOpened,
          Ev.folderEnsured case_id sec.drive_root_folder_id] ++
          (uploadAndLog case_id created_at
            (ensure_folder d case_id sec.drive_root_folder_id).1 payload
            (ensure_folder d case_id sec.drive_root_folder_id).2
            (open_worksheets s)).1 ++
          [Ev.casesRowAppended (casesRow case_id item (pyStrip judge_person) memo n
            overall sec.weight_version created_at)]
        drive := (uploadAndLog case_id created_at
            (ensure_folder d case_id sec.drive_root_folder_id).1 payload
            (ensure_folder d case_id sec.drive_root_folder_id).2
            (open_worksheets s)).2.1
        sheets := { (uploadAndLog case_id created_at
            (ensure_folder d case_id sec.drive_root_folder_id).1 payload
            (ensure_folder d case_id sec.drive_root_folder_id).2
            (open_worksheets s)).2.2 with
          cases := (uploadAndLog case_id created_at
            (ensure_folder d case_id sec.drive_root_folder_id).1 payload
            (ensure_folder d case_id sec.drive_root_folder_id).2
            (open_worksheets s)).2.2.cases ++
            [casesRow case_id item (pyStrip judge_person) memo n overall
              sec.weight_version created_at] }
        saved := true } := by
  simp only [saveHandler]
  rw [if_neg hname, hnone]

/-! ### Concrete fixtures for counterexamples and witnesses -/

def sampleSec : Secrets := ⟨"sheet1", "root", "COACH_v1.0"⟩

def emptyDrive : DriveState := ⟨[], 0⟩

def emptySheets : SheetsState := ⟨false, false, [], []⟩

def sampleFile : UploadedFile := ⟨"photo.jpg", some "image/jpeg", [137, 80]⟩

def sampleRow : RowInput := ⟨some sampleFile, 0, 0, 0, [], "", 0⟩

def sampleRowNoUpload : RowInput := ⟨none, 0, 0, 0, [], "", 0⟩

def samplePayload : ImagePayload := ⟨some sampleFile, "ロゴ", "基準内", "", "", "Yes", ""⟩

/-- A form with two valid photos whose aggregate has learn decision No and
the "Other" reason selected with empty free text. -/
def formC1 : FormInput := ⟨0, "柴田", "", 2, fun _ => sampleRow, ⟨0, [], 1, "", 4⟩⟩

/-- A form with an empty inspector name and a missing photo. -/
def formC2 : FormInput := ⟨0, "", "", 1, fun _ => sampleRowNoUpload, ⟨0, [], 0, "", 0⟩⟩

/-- A one-photo valid form (below the aggregate threshold). -/
def formC5 : FormInput := ⟨0, "柴田", "", 1, fun _ => sampleRow, ⟨0, [], 0, "", 0⟩⟩

/-! ### C2: validation does not report all violations -/

/-- C2 (counterexample): a submission with both an empty inspector name
and a missing photo reports only the inspector-name violation — `st.stop()`
aborts after the first failed check, so no photo violation is ever shown,
refuting "report all violations, do not short-circuit". -/
theorem validation_short_circuit_cx :
    pyStrip "" = "" ∧
    (∀ p ∈ buildRows formC2.rows (imgCount formC2.img_count_raw),
      p.uploaded.isNone = true) ∧
    (runSave sampleSec "case1" "ts1" formC2 emptyDrive emptySheets).events =
      [Ev.errorShown INSPECTOR_ERROR] ∧
    Ev.errorShown (photoError 0) ∉
      (runSave sampleSec "case1" "ts1" formC2 emptyDrive emptySheets).events := by
  exact ⟨rfl, by decide, by decide, by decide⟩

/-- C2 (amended): validation runs its checks in order and stops at the
first violation: an empty trimmed inspector name is reported alone; otherwise
a missing photo is reported alone, naming the first failing index; in every
case at most one violation message is shown. -/
theorem validation_reports_first_violation (sec : Secrets)
    (case_id created_at item judge_person memo : String) (n : Nat)
    (payload : List ImagePayload) (overall : Option Overall)
    (d : DriveState) (s : SheetsState) :
    (pyStrip judge_person = "" →
      (saveHandler sec case_id created_at item judge_person memo n payload
        overall d s).events = [Ev.errorShown INSPECTOR_ERROR]) ∧
    (∀ idx, ¬ pyStrip judge_person = "" →
      payload.findIdx? (fun p => p.uploaded.isNone) = some idx →
      (saveHandler sec case_id created_at item judge_person memo n payload
        overall d s).events = [Ev.errorShown (photoError idx)]) ∧
    ((saveHandler sec case_id created_at item judge_person memo n payload
      overall d s).events.filter (fun e => !(isRemoteCall e))).length ≤ 1 := by
  refine ⟨?_, ?_, ?_⟩
  · intro h
    rw [saveHandler_empty_name _ _ _ _ _ _ _ _ _ _ _ h]
  · intro idx hname hidx
    rw [saveHandler_missing_photo _ _ _ _ _ _ _ _ _ _ _ idx hname hidx]
  · by_cases hname : pyStrip judge_person = ""
    · rw [saveHandler_empty_name _ _ _ _ _ _ _ _ _ _ _ hname]
      dsimp only
      decide
    · cases hfi : payload.findIdx? (fun p => p.uploaded.isNone) with
      | some idx =>
        rw [saveHandler_missing_photo _ _ _ _ _ _ _ _ _ _ _ idx hname hfi]
        simp [isRemoteCall]
      | none =>
        rw [saveHandler_valid _ _ _ _ _ _ _ _ _ _ _ hname hfi]
        obtain ⟨_, _, h3, _, _⟩ := uploadAndLog_spec case_id created_at
          (ensure_folder d case_id sec.drive_root_folder_id).1 payload
          (ensure_folder d case_id sec.drive_root_folder_id).2 (open_worksheets s)
        dsimp only
        rw [List.filter_append, List.filter_append, h3,
          List.filter_cons_of_neg (fun h => Bool.noConfusion h),
          List.filter_cons_of_neg (fun h => Bool.noConfusion h),
          List.filter_cons_of_neg (fun h => Bool.noConfusion h),
          List.filter_cons_of_neg (fun h => Bool.noConfusion h),
          List.filter_nil]
        simp

/-- C2 (amended, witness): the short-circuit theorem applied to the
concrete two-violation case: the inspector-name check fires first and is the
only message. -/
theorem validation_reports_first_violation_witness :
    (pyStrip "" = "" →
      (saveHandler sampleSec "case1" "ts1" "バッグ" "" "" 1 [⟨none, "ロゴ", "基準内", "", "",
        "Yes", ""⟩] none emptyDrive emptySheets).events =
        [Ev.errorShown INSPECTOR_ERROR]) ∧
    (∀ idx, ¬ pyStrip "" = "" →
      [(⟨none, "ロゴ", "基準内", "", "", "Yes", ""⟩ : ImagePayload)].findIdx?
        (fun p => p.uploaded.isNone) = some idx →
      (saveHandler sampleSec "case1" "ts1" "バッグ" "" "" 1 [⟨none, "ロゴ", "基準内", "", "",
        "Yes", ""⟩] none emptyDrive emptySheets).events =
        [Ev.errorShown (photoError idx)]) ∧
    ((saveHandler sampleSec "case1" "ts1" "バッグ" "" "" 1 [⟨none, "ロゴ", "基準内", "", "",
      "Yes", ""⟩] none emptyDrive emptySheets).events.filter
        (fun e => !(isRemoteCall e))).length ≤ 1 :=
  validation_reports_first_violation sampleSec "case1" "ts1" "バッグ" "" "" 1
    [⟨none, "ロゴ", "基準内", "", "", "Yes", ""⟩] none emptyDrive emptySheets

/-! ### C3: validation failure performs no remote calls -/

/-- C3: a case failing validation — empty trimmed inspector name, or some
image entry without uploaded bytes — performs zero remote calls: no client
construction, folder provisioning, image upload or row append appears in the
trace, the Drive and Sheets states are unchanged, and nothing is saved. -/
theorem invalid_submission_no_remote_calls (sec : Secrets)
    (case_id created_at item judge_person memo : String) (n : Nat)
    (payload : List ImagePayload) (overall : Option Overall)
    (d : DriveState) (s : SheetsState)
    (hbad : pyStrip judge_person = "" ∨ ∃ p ∈ payload, p.uploaded.isNone = true) :
    (saveHandler sec case_id created_at item judge_person memo n payload
      overall d s).events.filter isRemoteCall = [] ∧
    (saveHandler sec case_id created_at item judge_person memo n payload
      overall d s).drive = d ∧
    (saveHandler sec case_id created_at item judge_person memo n payload
      overall d s).sheets = s ∧
    (saveHandler sec case_id created_at item judge_person memo n payload
      overall d s).saved = false := by
  by_cases hname : pyStrip judge_person = ""
  · rw [saveHandler_empty_name _ _ _ _ _ _ _ _ _ _ _ hname]
    exact ⟨rfl, rfl, rfl, rfl⟩
  · rcases hbad with h | h
    · exact absurd h hname
    · have hex : ∃ idx, payload.findIdx? (fun p => p.uploaded.isNone) = some idx := by
        cases hfi : payload.findIdx? (fun p => p.uploaded.isNone) with
        | some i => exact ⟨i, rfl⟩
        | none =>
          obtain ⟨p, hp, hpn⟩ := h
          have := List.findIdx?_eq_none_iff.mp hfi p hp
          rw [hpn] at this
          cases this
      obtain ⟨idx, hidx⟩ := hex
      rw [saveHandler_missing_photo _ _ _ _ _ _ _ _ _ _ _ idx hname hidx]
      exact ⟨rfl, rfl, rfl, rfl⟩

/-- C3 (witness): the theorem applied to a concrete submission whose
inspector name is empty: nothing is called and both stores are unchanged. -/
theorem invalid_submission_no_remote_calls_witness :
    (saveHandler sampleSec "case1" "ts1" "バッグ" "" "" 1 [samplePayload] none
      emptyDrive emptySheets).events.filter isRemoteCall = [] ∧
    (saveHandler sampleSec "case1" "ts1" "バッグ" "" "" 1 [samplePayload] none
      emptyDrive emptySheets).drive = emptyDrive ∧
    (saveHandler sampleSec "case1" "ts1" "バッグ" "" "" 1 [samplePayload] none
      emptyDrive emptySheets).sheets = emptySheets ∧
    (saveHandler sampleSec "case1" "ts1" "バッグ" "" "" 1 [samplePayload] none
      emptyDrive emptySheets).saved = false :=
  invalid_submission_no_remote_calls sampleSec "case1" "ts1" "バッグ" "" "" 1
    [samplePayload] none emptyDrive emptySheets (Or.inl (by decide))

/-! ### C4: image rows precede the case row -/

/-- C4: for every valid submission with n image entries, the handler
appends exactly n Images rows — one per entry, in list order, carrying that
entry's fields — all strictly before the single Cases row, which is the last
event; the Images table grows by exactly n rows and the Cases table by
exactly the one case row. -/
theorem image_rows_precede_case_row (sec : Secrets)
    (case_id created_at item judge_person memo : String) (n : Nat)
    (payload : List ImagePayload) (overall : Option Overall)
    (d : DriveState) (s : SheetsState)
    (hname : ¬ pyStrip judge_person = "")
    (hup : ∀ p ∈ payload, p.uploaded.isSome = true) :
    ∃ pre row,
      (saveHandler sec case_id created_at item judge_person memo n payload
        overall d s).events = pre ++ [Ev.casesRowAppended row] ∧
      (∀ r, Ev.casesRowAppended r ∉ pre) ∧
      pre.filterMap imgRowProj = payload.map (payloadProj case_id created_at) ∧
      (saveHandler sec case_id created_at item judge_person memo n payload
        overall d s).sheets.images.length =
        (open_worksheets s).images.length + payload.length ∧
      (saveHandler sec case_id created_at item judge_person memo n payload
        overall d s).sheets.cases = (open_worksheets s).cases ++ [row] := by
  have hnone := findIdx?_none_of_all_some payload hup
  rw [saveHandler_valid _ _ _ _ _ _ _ _ _ _ _ hname hnone]
  set EF := ensure_folder d case_id sec.drive_root_folder_id with hEF
  set UL := uploadAndLog case_id created_at EF.1 payload EF.2 (open_worksheets s) with hUL
  obtain ⟨h1, h2, h3, h4, h5⟩ := uploadAndLog_spec case_id created_at EF.1 payload EF.2
    (open_worksheets s)
  rw [← hUL] at h1 h2 h3 h4 h5
  refine ⟨[Ev.clientsBuilt, Ev.worksheetsOpened,
      Ev.folderEnsured case_id sec.drive_root_folder_id] ++ UL.1,
    casesRow case_id item (pyStrip judge_person) memo n overall
      sec.weight_version created_at, ?_, ?_, ?_, ?_, ?_⟩
  · dsimp only
  · intro r hr
    rcases List.mem_append.mp hr with h | h
    · simp only [List.mem_cons, List.mem_singleton] at h
      rcases h with h | h | h
      · exact Ev.noConfusion h
      · exact Ev.noConfusion h
      · rcases h with h | h
        · exact Ev.noConfusion h
        · exact absurd h (List.not_mem_nil _)
    · exact h2 r h
  · rw [List.filterMap_append]
    rw [show List.filterMap imgRowProj [Ev.clientsBuilt, Ev.worksheetsOpened,
      Ev.folderEnsured case_id sec.drive_root_folder_id] = [] from rfl]
    rw [List.nil_append]
    exact h1
  · exact h5
  · dsimp only
    rw [h4]

/-- C4 (witness): the theorem applied to a concrete valid one-photo
submission, discharging both validation hypotheses. -/
theorem image_rows_precede_case_row_witness :
    ∃ pre row,
      (saveHandler sampleSec "case1" "ts1" "バッグ" "柴田" "" 1 [samplePayload] none
        emptyDrive emptySheets).events = pre ++ [Ev.casesRowAppended row] ∧
      (∀ r, Ev.casesRowAppended r ∉ pre) ∧
      pre.filterMap imgRowProj = [samplePayload].map (payloadProj "case1" "ts1") ∧
      (saveHandler sampleSec "case1" "ts1" "バッグ" "柴田" "" 1 [samplePayload] none
        emptyDrive emptySheets).sheets.images.length =
        (open_worksheets emptySheets).images.length + [samplePayload].length ∧
      (saveHandler sampleSec "case1" "ts1" "バッグ" "柴田" "" 1 [samplePayload] none
        emptyDrive emptySheets).sheets.cases =
        (open_worksheets emptySheets).cases ++ [row] :=
  image_rows_precede_case_row sampleSec "case1" "ts1" "バッグ" "柴田" "" 1 [samplePayload]
    none emptyDrive emptySheets (by decide) (by decide)

/-! ### C5 and C10: the overall columns of the persisted Cases row -/

theorem saveHandler_valid_getLast? (sec : Secrets)
    (case_id created_at item judge_person memo : String) (n : Nat)
    (payload : List ImagePayload) (overall : Option Overall)
    (d : DriveState) (s : SheetsState)
    (hname : ¬ pyStrip judge_person = "")
    (hnone : payload.findIdx? (fun p => p.uploaded.isNone) = none) :
    (saveHandler sec case_id created_at item judge_person memo n payload
      overall d s).events.getLast? =
      some (Ev.casesRowAppended (casesRow case_id item (pyStrip judge_person) memo n
        overall sec.weight_version created_at)) := by
  rw [saveHandler_valid _ _ _ _ _ _ _ _ _ _ _ hname hnone]
  exact List.getLast?_concat _

theorem mem_JUDGE_OPTIONS_ne_empty (r : String) (h : r ∈ JUDGE_OPTIONS) : r ≠ "" := by
  simp only [JUDGE_OPTIONS] at h
  fin_cases h <;> decide

theorem mem_LEARN_OPTIONS_ne_empty (r : String) (h : r ∈ LEARN_OPTIONS) : r ≠ "" := by
  simp only [LEARN_OPTIONS] at h
  fin_cases h <;> decide

/-- C5: a submitted case with fewer images than the threshold 2 persists
a Cases row whose five overall columns (indices 6–10: overall_judge,
overall_reason_choices, overall_reason_free, overall_learn_yn,
overall_learn_no_reason) are all written as empty strings in a full-width
row, not omitted; at or above the threshold the aggregate is present and its
five values fill exactly those columns. -/
theorem overall_columns_below_threshold (sec : Secrets) (case_id created_at : String)
    (f : FormInput) (d : DriveState) (s : SheetsState)
    (hname : ¬ pyStrip f.judge_person = "")
    (hup : ∀ p ∈ buildRows f.rows (imgCount f.img_count_raw), p.uploaded.isSome = true) :
    (f.img_count_raw < 2 →
      ∃ row, (runSave sec case_id created_at f d s).events.getLast? =
          some (Ev.casesRowAppended row) ∧
        row.length = CASES_HEADER.length ∧
        row.getD 6 "" = "" ∧ row.getD 7 "" = "" ∧ row.getD 8 "" = "" ∧
        row.getD 9 "" = "" ∧ row.getD 10 "" = "") ∧
    (2 ≤ f.img_count_raw →
      ∃ row o, buildOverall (imgCount f.img_count_raw) f.overall_in = some o ∧
        (runSave sec case_id created_at f d s).events.getLast? =
          some (Ev.casesRowAppended row) ∧
        row.length = CASES_HEADER.length ∧
        row.getD 6 "" = o.overall_judge ∧ row.getD 7 "" = o.overall_reason_choices ∧
        row.getD 8 "" = o.overall_reason_free ∧ row.getD 9 "" = o.overall_learn_yn ∧
        row.getD 10 "" = o.overall_learn_no_reason) := by
  have hnone := findIdx?_none_of_all_some _ hup
  have hrs : runSave sec case_id created_at f d s =
      saveHandler sec case_id created_at (selectFrom ITEM_OPTIONS f.item_idx)
        f.judge_person f.memo (imgCount f.img_count_raw)
        (buildRows f.rows (imgCount f.img_count_raw))
        (buildOverall (imgCount f.img_count_raw) f.overall_in) d s := rfl
  constructor
  · intro hlt
    have hov : buildOverall (imgCount f.img_count_raw) f.overall_in = none :=
      buildOverall_none _ _ (by unfold imgCount; omega)
    refine ⟨casesRow case_id (selectFrom ITEM_OPTIONS f.item_idx) (pyStrip f.judge_person)
      f.memo (imgCount f.img_count_raw) none sec.weight_version created_at,
      ?_, rfl, rfl, rfl, rfl, rfl, rfl⟩
    rw [hrs, hov]
    exact saveHandler_valid_getLast? _ _ _ _ _ _ _ _ _ _ _ hname hnone
  · intro h2
    have h2' : 2 ≤ imgCount f.img_count_raw := by unfold imgCount; omega
    have hov := buildOverall_eq (imgCount f.img_count_raw) f.overall_in h2'
    refine ⟨casesRow case_id (selectFrom ITEM_OPTIONS f.item_idx) (pyStrip f.judge_person)
      f.memo (imgCount f.img_count_raw)
      (some { overall_judge := selectFrom JUDGE_OPTIONS f.overall_in.judge_idx
              overall_reason_choices := String.intercalate " / "
                (multiselectFrom OVERALL_REASON_OPTIONS f.overall_in.reason_choices)
              overall_reason_free := f.overall_in.reason_free
              overall_learn_yn := selectFrom LEARN_OPTIONS f.overall_in.learn_idx
              overall_learn_no_reason :=
                if selectFrom LEARN_OPTIONS f.overall_in.learn_idx = "No" then
                  selectFrom LEARN_NO_REASONS f.overall_in.no_reason_idx
                else "" })
      sec.weight_version created_at,
      { overall_judge := selectFrom JUDGE_OPTIONS f.overall_in.judge_idx
        overall_reason_choices := String.intercalate " / "
          (multiselectFrom OVERALL_REASON_OPTIONS f.overall_in.reason_choices)
        overall_reason_free := f.overall_in.reason_free
        overall_learn_yn := selectFrom LEARN_OPTIONS f.overall_in.learn_idx
        overall_learn_no_reason :=
          if selectFrom LEARN_OPTIONS f.overall_in.learn_idx = "No" then
            selectFrom LEARN_NO_REASONS f.overall_in.no_reason_idx
          else "" },
      hov, ?_, rfl, rfl, rfl, rfl, rfl, rfl⟩
    rw [hrs, hov]
    exact saveHandler_valid_getLast? _ _ _ _ _ _ _ _ _ _ _ hname hnone

/-- C5 (witness): the theorem applied to a concrete valid one-photo form:
both implications are instantiated, the first discharged at image count 1. -/
theorem overall_columns_below_threshold_witness :
    (formC5.img_count_raw < 2 →
      ∃ row, (runSave sampleSec "case1" "ts1" formC5 emptyDrive emptySheets).events.getLast? =
          some (Ev.casesRowAppended row) ∧
        row.length = CASES_HEADER.length ∧
        row.getD 6 "" = "" ∧ row.getD 7 "" = "" ∧ row.getD 8 "" = "" ∧
        row.getD 9 "" = "" ∧ row.getD 10 "" = "") ∧
    (2 ≤ formC5.img_count_raw →
      ∃ row o, buildOverall (imgCount formC5.img_count_raw) formC5.overall_in = some o ∧
        (runSave sampleSec "case1" "ts1" formC5 emptyDrive emptySheets).events.getLast? =
          some (Ev.casesRowAppended row) ∧
        row.length = CASES_HEADER.length ∧
        row.getD 6 "" = o.overall_judge ∧ row.getD 7 "" = o.overall_reason_choices ∧
        row.getD 8 "" = o.overall_reason_free ∧ row.getD 9 "" = o.overall_learn_yn ∧
        row.getD 10 "" = o.overall_learn_no_reason) :=
  overall_columns_below_threshold sampleSec "case1" "ts1" formC5 emptyDrive emptySheets
    (by decide) (by decide)

/-- C10: whenever a valid case reaches the two-image threshold the
aggregate is in fact always present — the persisted Cases row's
overall_judge is one of the three judgment values and overall_learn_yn is
Yes or No, both non-empty, because the overall widgets are unconditionally
populated with defaulted required values. -/
theorem aggregate_present_at_threshold (sec : Secrets) (case_id created_at : String)
    (f : FormInput) (d : DriveState) (s : SheetsState)
    (hname : ¬ pyStrip f.judge_person = "")
    (hup : ∀ p ∈ buildRows f.rows (imgCount f.img_count_raw), p.uploaded.isSome = true)
    (h2 : 2 ≤ f.img_count_raw) :
    ∃ o row, buildOverall (imgCount f.img_count_raw) f.overall_in = some o ∧
      o.overall_judge ∈ JUDGE_OPTIONS ∧ o.overall_learn_yn ∈ LEARN_OPTIONS ∧
      o.overall_judge ≠ "" ∧ o.overall_learn_yn ≠ "" ∧
      (runSave sec case_id created_at f d s).events.getLast? =
        some (Ev.casesRowAppended row) ∧
      row.getD 6 "" = o.overall_judge ∧ row.getD 9 "" = o.overall_learn_yn := by
  have hnone := findIdx?_none_of_all_some _ hup
  have hrs : runSave sec case_id created_at f d s =
      saveHandler sec case_id created_at (selectFrom ITEM_OPTIONS f.item_idx)
        f.judge_person f.memo (imgCount f.img_count_raw)
        (buildRows f.rows (imgCount f.img_count_raw))
        (buildOverall (imgCount f.img_count_raw) f.overall_in) d s := rfl
  have h2' : 2 ≤ imgCount f.img_count_raw := by unfold imgCount; omega
  have hov := buildOverall_eq (imgCount f.img_count_raw) f.overall_in h2'
  have hjm : selectFrom JUDGE_OPTIONS f.overall_in.judge_idx ∈ JUDGE_OPTIONS :=
    selectFrom_mem _ _ (by decide)
  have hlm : selectFrom LEARN_OPTIONS f.overall_in.learn_idx ∈ LEARN_OPTIONS :=
    selectFrom_mem _ _ (by decide)
  refine ⟨{ overall_judge := selectFrom JUDGE_OPTIONS f.overall_in.judge_idx
            overall_reason_choices := String.intercalate " / "
              (multiselectFrom OVERALL_REASON_OPTIONS f.overall_in.reason_choices)
            overall_reason_free := f.overall_in.reason_free
            overall_learn_yn := selectFrom LEARN_OPTIONS f.overall_in.learn_idx
            overall_learn_no_reason :=
              if selectFrom LEARN_OPTIONS f.overall_in.learn_idx = "No" then
                selectFrom LEARN_NO_REASONS f.overall_in.no_reason_idx
              else "" },
    casesRow case_id (selectFrom ITEM_OPTIONS f.item_idx) (pyStrip f.judge_person)
      f.memo (imgCount f.img_count_raw)
      (some { overall_judge := selectFrom JUDGE_OPTIONS f.overall_in.judge_idx
              overall_reason_choices := String.intercalate " / "
                (multiselectFrom OVERALL_REASON_OPTIONS f.overall_in.reason_choices)
              overall_reason_free := f.overall_in.reason_free
              overall_learn_yn := selectFrom LEARN_OPTIONS f.overall_in.learn_idx
              overall_learn_no_reason :=
                if selectFrom LEARN_OPTIONS f.overall_in.learn_idx = "No" then
                  selectFrom LEARN_NO_REASONS f.overall_in.no_reason_idx
                else "" })
      sec.weight_version created_at,
    hov, hjm, hlm, mem_JUDGE_OPTIONS_ne_empty _ hjm, mem_LEARN_OPTIONS_ne_empty _ hlm,
    ?_, rfl, rfl⟩
  rw [hrs, hov]
  exact saveHandler_valid_getLast? _ _ _ _ _ _ _ _ _ _ _ hname hnone

/-- C10 (witness): the theorem applied to the concrete two-photo form
`formC1`, discharging the name, upload and threshold hypotheses. -/
theorem aggregate_present_at_threshold_witness :
    ∃ o row, buildOverall (imgCount formC1.img_count_raw) formC1.overall_in = some o ∧
      o.overall_judge ∈ JUDGE_OPTIONS ∧ o.overall_learn_yn ∈ LEARN_OPTIONS ∧
      o.overall_judge ≠ "" ∧ o.overall_learn_yn ≠ "" ∧
      (runSave sampleSec "case1" "ts1" formC1 emptyDrive emptySheets).events.getLast? =
        some (Ev.casesRowAppended row) ∧
      row.getD 6 "" = o.overall_judge ∧ row.getD 9 "" = o.overall_learn_yn :=
  aggregate_present_at_threshold sampleSec "case1" "ts1" formC1 emptyDrive emptySheets
    (by decide) (by decide) (by decide)

/-! ### C1: the acceptance condition of validation -/

theorem buildRows_mem (inputs : Nat → RowInput) (n : Nat) :
    ∀ p ∈ buildRows inputs n, ∃ chosen inp, p = buildRow chosen inp := by
  induction n with
  | zero =>
    intro p hp
    simp [buildRows] at hp
  | succ m ih =>
    intro p hp
    simp only [buildRows] at hp
    rcases List.mem_append.mp hp with h | h
    · exact ih p h
    · rw [List.mem_singleton] at h
      exact ⟨_, _, h⟩

/-- C1 (counterexample): a case the handler accepts (saved) whose
aggregate has learn decision No with the "Other" variant and no supplement —
the spec's acceptance condition is false for it, so acceptance is not
equivalent to the claimed conjunction. -/
theorem accepts_but_spec_condition_fails :
    (runSave sampleSec "case1" "ts1" formC1 emptyDrive emptySheets).saved = true ∧
    ¬ specAccepts formC1.judge_person
        (buildRows formC1.rows (imgCount formC1.img_count_raw))
        (buildOverall (imgCount formC1.img_count_raw) formC1.overall_in) := by
  exact ⟨by decide, by decide⟩

/-- C1 (amended): validation accepts exactly when the trimmed inspector
name is non-empty and every image entry has uploaded bytes.  The claim's
remaining conditions hold automatically for every form-built case — each
entry has a judgment and a learn decision drawn from the widget options and
satisfies the learn-no-reason rule including the "Other" supplement — except
that the aggregate's learn-no reason, while always non-empty when its learn
decision is No, is the bare selected variant and never carries supplement
text, so it is not part of what acceptance is equivalent to. -/
theorem validation_accepts_iff (sec : Secrets) (case_id created_at : String)
    (f : FormInput) (d : DriveState) (s : SheetsState) :
    ((runSave sec case_id created_at f d s).saved = true ↔
      (¬ pyStrip f.judge_person = "" ∧
        ∀ p ∈ buildRows f.rows (imgCount f.img_count_raw), p.uploaded.isSome = true)) ∧
    (∀ p ∈ buildRows f.rows (imgCount f.img_count_raw),
      p.judge ∈ JUDGE_OPTIONS ∧ p.learn_yn ∈ LEARN_OPTIONS ∧
      learnNoReasonOk p.learn_yn p.learn_no_reason) ∧
    (∀ o ∈ (buildOverall (imgCount f.img_count_raw) f.overall_in).toList,
      o.overall_learn_yn = "No" → o.overall_learn_no_reason ≠ "") := by
  have hrs : runSave sec case_id created_at f d s =
      saveHandler sec case_id created_at (selectFrom ITEM_OPTIONS f.item_idx)
        f.judge_person f.memo (imgCount f.img_count_raw)
        (buildRows f.rows (imgCount f.img_count_raw))
        (buildOverall (imgCount f.img_count_raw) f.overall_in) d s := rfl
  refine ⟨⟨?_, ?_⟩, ?_, ?_⟩
  · intro hsaved
    by_cases hname : pyStrip f.judge_person = ""
    · rw [hrs, saveHandler_empty_name _ _ _ _ _ _ _ _ _ _ _ hname] at hsaved
      cases hsaved
    · refine ⟨hname, ?_⟩
      cases hfi : (buildRows f.rows (imgCount f.img_count_raw)).findIdx?
          (fun p => p.uploaded.isNone) with
      | some idx =>
        rw [hrs, saveHandler_missing_photo _ _ _ _ _ _ _ _ _ _ _ idx hname hfi] at hsaved
        cases hsaved
      | none => exact all_some_of_findIdx?_none _ hfi
  · rintro ⟨hname, hup⟩
    rw [hrs, saveHandler_valid _ _ _ _ _ _ _ _ _ _ _ hname
      (findIdx?_none_of_all_some _ hup)]
  · intro p hp
    obtain ⟨chosen, inp, rfl⟩ := buildRows_mem _ _ p hp
    exact ⟨buildRow_judge_mem _ _, buildRow_learn_mem _ _, buildRow_learnNoReasonOk _ _⟩
  · intro o ho hno
    by_cases h2 : 2 ≤ imgCount f.img_count_raw
    · rw [buildOverall_eq _ _ h2] at ho
      simp only [Option.toList_some, List.mem_singleton] at ho
      subst ho
      have hno' : selectFrom LEARN_OPTIONS f.overall_in.learn_idx = "No" := hno
      show (if selectFrom LEARN_OPTIONS f.overall_in.learn_idx = "No" then
        selectFrom LEARN_NO_REASONS f.overall_in.no_reason_idx else "") ≠ ""
      rw [if_pos hno']
      exact mem_LEARN_NO_REASONS_ne_empty _ (selectFrom_mem _ _ (by decide))
    · rw [buildOverall_none _ _ (by omega)] at ho
      simp at ho

/-- C1 (amended, witness): the amended theorem instantiated at the
concrete two-photo form `formC5`-like inputs with all widgets defaulted. -/
theorem validation_accepts_iff_witness :
    ((runSave sampleSec "case9" "ts9" formC5 emptyDrive emptySheets).saved = true ↔
      (¬ pyStrip formC5.judge_person = "" ∧
        ∀ p ∈ buildRows formC5.rows (imgCount formC5.img_count_raw),
          p.uploaded.isSome = true)) ∧
    (∀ p ∈ buildRows formC5.rows (imgCount formC5.img_count_raw),
      p.judge ∈ JUDGE_OPTIONS ∧ p.learn_yn ∈ LEARN_OPTIONS ∧
      learnNoReasonOk p.learn_yn p.learn_no_reason) ∧
    (∀ o ∈ (buildOverall (imgCount formC5.img_count_raw) formC5.overall_in).toList,
      o.overall_learn_yn = "No" → o.overall_learn_no_reason ≠ "") :=
  validation_accepts_iff sampleSec "case9" "ts9" formC5 emptyDrive emptySheets

end CoachApp
